import Mathlib

/-!
Verification of the `two_button_blink` polling driver
(`src/two_button_blink.c`).

The driver runs a polling loop (`poll_thread_fn`) that
* samples two buttons (GPIO23 "increment", GPIO24 "decrement"),
  doing edge detection against `last_inc_state` / `last_dec_state`,
* on a LOW→HIGH release whose held time (in jiffies) is below `HZ`
  (one second) applies the button's frequency delta (+5, or -5 with a
  floor clamp at 1),
* toggles the LED (GPIO18) once per iteration, and
* sleeps for `(1000 / blink_freq) / 2` milliseconds, re-clamping
  `blink_freq` to at least 1 right before the division.

We embed the loop body as a pure function on an explicit state record,
the loop itself as a fuel-bounded iteration guarded by an external stop
predicate (modelling `kthread_should_stop() && running`), and the
module init/exit paths as pure functions over a small environment.
C `int` becomes `Int` with C truncating division `Int.tdiv`; the
`unsigned long` jiffies arithmetic is `Nat` modulo `2 ^ 64`.
-/

namespace TwoButtonBlink

/-- Kernel configuration constant `HZ`: timer ticks (jiffies) per
second, so a held time of `HZ` jiffies is exactly one second.  The
value is fixed by the kernel build (100 on the Raspberry Pi default
config); the proofs only use that `diff < HZ` means "held strictly
less than one second". -/
def HZ : Nat := 100

/-- Modulus of the C `unsigned long` jiffies arithmetic (64-bit). -/
def WORD : Nat := 2 ^ 64

/-- LED output pin (`GPIO_LED`). -/
def GPIO_LED : Nat := 18

/-- Increment button pin (`GPIO_BTN_INC`). -/
def GPIO_BTN_INC : Nat := 23

/-- Decrement button pin (`GPIO_BTN_DEC`). -/
def GPIO_BTN_DEC : Nat := 24

/-- The mutable state of the polling loop: the module globals
`blink_freq`, `last_inc_state`, `last_dec_state`, `inc_press_jiffies`,
`dec_press_jiffies` together with the loop-local `led_on`. -/
structure LoopState where
  blink_freq : Int
  last_inc_state : Nat
  last_dec_state : Nat
  inc_press_jiffies : Nat
  dec_press_jiffies : Nat
  led_on : Bool
deriving Repr, DecidableEq

/-- The initial state: the globals' static initializers
(`blink_freq = 2`, both `last_*_state = 1` i.e. HIGH at rest,
press timestamps 0) plus `led_on = false` set at the top of
`poll_thread_fn`. -/
def init_state : LoopState :=
  { blink_freq := 2
    last_inc_state := 1
    last_dec_state := 1
    inc_press_jiffies := 0
    dec_press_jiffies := 0
    led_on := false }

/-- The external inputs one loop iteration reads: the jiffies counter
and the sampled level (1 = HIGH, 0 = LOW) of each button pin. -/
structure Input where
  now : Nat
  inc_level : Nat
  dec_level : Nat
deriving Repr, DecidableEq

/-- `unsigned long` subtraction `now - press` of jiffies values,
wrapping modulo `2 ^ 64`. -/
def jdiff (now press : Nat) : Nat :=
  (now % WORD + (WORD - press % WORD)) % WORD

/-- A call to the GPIO write helpers: `gpio_set_pin` or
`gpio_clear_pin` on a given pin. -/
inductive GpioCall where
  | setPin : Nat → GpioCall
  | clearPin : Nat → GpioCall
deriving Repr, DecidableEq

/-- Block 1 of the loop body: check the "increment" button.  If the
sampled level differs from `last_inc_state`: on a press (level 0)
record `inc_press_jiffies`; on a release, if the held time is below
`HZ` do `blink_freq += 5`; then store the sampled level. -/
def check_inc_button (now curr : Nat) (s : LoopState) : LoopState :=
  if curr ≠ s.last_inc_state then
    if curr = 0 then
      { s with inc_press_jiffies := now % WORD, last_inc_state := curr }
    else
      if jdiff now s.inc_press_jiffies < HZ then
        { s with blink_freq := s.blink_freq + 5, last_inc_state := curr }
      else
        { s with last_inc_state := curr }
  else s

/-- Block 2 of the loop body: check the "decrement" button.  Same edge
detection; a valid short press does `blink_freq -= 5` followed by the
floor clamp `if (blink_freq < 1) blink_freq = 1`. -/
def check_dec_button (now curr : Nat) (s : LoopState) : LoopState :=
  if curr ≠ s.last_dec_state then
    if curr = 0 then
      { s with dec_press_jiffies := now % WORD, last_dec_state := curr }
    else
      if jdiff now s.dec_press_jiffies < HZ then
        { s with
            blink_freq :=
              if s.blink_freq - 5 < 1 then 1 else s.blink_freq - 5
            last_dec_state := curr }
      else
        { s with last_dec_state := curr }
  else s

/-- Block 3 of the loop body: blink the LED.  Issues exactly one GPIO
call (`gpio_clear_pin(GPIO_LED)` if the LED is on, else
`gpio_set_pin(GPIO_LED)`) and flips `led_on`. -/
def toggle_led (s : LoopState) : LoopState × GpioCall :=
  if s.led_on then
    ({ s with led_on := false }, GpioCall.clearPin GPIO_LED)
  else
    ({ s with led_on := true }, GpioCall.setPin GPIO_LED)

/-- The half-cycle sleep length `(1000 / freq) / 2` with C `int`
(truncating) division. -/
def halfPeriodMs (f : Int) : Int :=
  ((1000 : Int).tdiv f).tdiv 2

/-- One iteration of the `while` body of `poll_thread_fn`: check both
buttons, toggle the LED, re-clamp `blink_freq` to at least 1, and
compute the `msleep` argument from the clamped frequency.  Returns the
new state, the single GPIO call issued, and the sleep duration in
milliseconds. -/
def poll_iteration (inp : Input) (s : LoopState) : LoopState × GpioCall × Nat :=
  let s1 := check_inc_button inp.now inp.inc_level s
  let s2 := check_dec_button inp.now inp.dec_level s1
  let tl := toggle_led s2
  let s3 :=
    if tl.1.blink_freq < 1 then { tl.1 with blink_freq := 1 } else tl.1
  (s3, tl.2, (halfPeriodMs s3.blink_freq).toNat)

/-- Run the loop body over a finite list of per-iteration inputs,
collecting the (GPIO call, sleep ms) trace. -/
def runList : List Input → LoopState → LoopState × List (GpioCall × Nat)
  | [], s => (s, [])
  | inp :: rest, s =>
    let r := poll_iteration inp s
    let t := runList rest r.1
    (t.1, (r.2.1, r.2.2) :: t.2)

/-- The guarded loop of `poll_thread_fn`: before iteration `i` the
guard `!kthread_should_stop() && running` is checked, modelled as the
predicate `stop i`; if it requests a stop the function returns at
once, otherwise the body runs on input `inputs i`.  `fuel` bounds the
number of iterations so the recursion is total; the returned state is
the state at the `return 0` of the thread function, the list is the
trace of iterations that actually ran. -/
def poll_thread_fn (stop : Nat → Bool) (inputs : Nat → Input) :
    Nat → Nat → LoopState → LoopState × List (GpioCall × Nat)
  | 0, _, s => (s, [])
  | fuel + 1, i, s =>
    if stop i then (s, [])
    else
      let r := poll_iteration (inputs i) s
      let t := poll_thread_fn stop inputs fuel (i + 1) r.1
      (t.1, (r.2.1, r.2.2) :: t.2)

/-- Whether the LED pin is lit after a sequence of GPIO calls, given
its prior lit state: `gpio_set_pin(GPIO_LED)` lights it,
`gpio_clear_pin(GPIO_LED)` unlights it, calls on other pins leave it. -/
def led_lit (b : Bool) : List GpioCall → Bool
  | [] => b
  | GpioCall.setPin p :: rest => led_lit (if p = GPIO_LED then true else b) rest
  | GpioCall.clearPin p :: rest => led_lit (if p = GPIO_LED then false else b) rest

/-- The GPIO calls observed during shutdown: `two_button_exit` clears
`running`, waits in `kthread_stop` for the already-traced loop
iterations to finish and the thread function to return, and only then
issues `gpio_clear_pin(GPIO_LED)`. -/
def two_button_exit_calls (loop_calls : List GpioCall) : List GpioCall :=
  loop_calls ++ [GpioCall.clearPin GPIO_LED]

/-- Kernel error number `ENOMEM` (the init path returns `-ENOMEM`). -/
def ENOMEM : Int := 12

/-- Environment of `two_button_init`: whether `ioremap` succeeds, and
whether `kthread_run` fails (`some e` meaning `IS_ERR(poll_thread)`
with `PTR_ERR(poll_thread) = e`). -/
structure InitEnv where
  ioremap_ok : Bool
  kthread_err : Option Int
deriving Repr, DecidableEq

/-- Observable outcome of `two_button_init`: its return code, whether
the GPIO mapping is still held when it returns, and whether the
polling thread is running when it returns. -/
structure InitOutcome where
  ret : Int
  gpio_mapped : Bool
  thread_started : Bool
deriving Repr, DecidableEq

/-- The control skeleton of `two_button_init`: if `ioremap` fails,
return `-ENOMEM` with nothing acquired; otherwise, if `kthread_run`
fails, `iounmap` the mapping and return `PTR_ERR(poll_thread)`; else
everything is up and the return code is 0. -/
def two_button_init (env : InitEnv) : InitOutcome :=
  if env.ioremap_ok = false then
    { ret := -ENOMEM, gpio_mapped := false, thread_started := false }
  else
    match env.kthread_err with
    | some e => { ret := e, gpio_mapped := false, thread_started := false }
    | none => { ret := 0, gpio_mapped := true, thread_started := true }

end TwoButtonBlink

namespace TwoButtonBlink

/-! ### Helper lemmas about the button handlers -/

@[simp] lemma check_inc_button_last (now c : Nat) (s : LoopState) :
    (check_inc_button now c s).last_inc_state = c := by
  unfold check_inc_button
  split_ifs with h1 h2 h3 <;> first | rfl | omega

@[simp] lemma check_dec_button_last (now c : Nat) (s : LoopState) :
    (check_dec_button now c s).last_dec_state = c := by
  unfold check_dec_button
  split_ifs with h1 h2 h3 <;> first | rfl | omega

@[simp] lemma check_inc_button_last_dec (now c : Nat) (s : LoopState) :
    (check_inc_button now c s).last_dec_state = s.last_dec_state := by
  unfold check_inc_button
  split_ifs <;> rfl

@[simp] lemma check_inc_button_dec_press (now c : Nat) (s : LoopState) :
    (check_inc_button now c s).dec_press_jiffies = s.dec_press_jiffies := by
  unfold check_inc_button
  split_ifs <;> rfl

@[simp] lemma check_inc_button_led (now c : Nat) (s : LoopState) :
    (check_inc_button now c s).led_on = s.led_on := by
  unfold check_inc_button
  split_ifs <;> rfl

@[simp] lemma check_dec_button_last_inc (now c : Nat) (s : LoopState) :
    (check_dec_button now c s).last_inc_state = s.last_inc_state := by
  unfold check_dec_button
  split_ifs <;> rfl

@[simp] lemma check_dec_button_inc_press (now c : Nat) (s : LoopState) :
    (check_dec_button now c s).inc_press_jiffies = s.inc_press_jiffies := by
  unfold check_dec_button
  split_ifs <;> rfl

@[simp] lemma check_dec_button_led (now c : Nat) (s : LoopState) :
    (check_dec_button now c s).led_on = s.led_on := by
  unfold check_dec_button
  split_ifs <;> rfl

end TwoButtonBlink

namespace TwoButtonBlink

/-! ### Lemmas about one loop iteration -/

lemma poll_iteration_led (inp : Input) (s : LoopState) :
    (poll_iteration inp s).1.led_on = !s.led_on := by
  simp only [poll_iteration, toggle_led]
  split_ifs <;> simp_all

lemma poll_iteration_one_le (inp : Input) (s : LoopState) :
    1 ≤ (poll_iteration inp s).1.blink_freq := by
  simp only [poll_iteration]
  split_ifs with h <;> simp_all

lemma poll_iteration_last_levels (inp : Input) (s : LoopState) :
    (poll_iteration inp s).1.last_inc_state = inp.inc_level ∧
    (poll_iteration inp s).1.last_dec_state = inp.dec_level := by
  simp only [poll_iteration, toggle_led]
  split_ifs <;> simp

end TwoButtonBlink

namespace TwoButtonBlink

/-! ### Lemmas about runs of the loop -/

lemma runList_led (inps : List Input) (s : LoopState) :
    (runList inps s).1.led_on = xor s.led_on (decide (inps.length % 2 = 1)) := by
  induction inps generalizing s with
  | nil => simp [runList]
  | cons inp rest ih =>
    simp only [runList, List.length_cons]
    rw [ih, poll_iteration_led]
    have hmod : (rest.length + 1) % 2 = 1 ↔ ¬(rest.length % 2 = 1) := by omega
    by_cases h : rest.length % 2 = 1 <;>
      cases hb : s.led_on <;> simp [h, hmod.mpr, hmod]

lemma runList_length (inps : List Input) (s : LoopState) :
    (runList inps s).2.length = inps.length := by
  induction inps generalizing s with
  | nil => rfl
  | cons inp rest ih => simp [runList, ih]

lemma runList_one_le (inps : List Input) (s : LoopState)
    (h : 1 ≤ s.blink_freq) : 1 ≤ (runList inps s).1.blink_freq := by
  induction inps generalizing s with
  | nil => exact h
  | cons inp rest ih => exact ih _ (poll_iteration_one_le inp s)

lemma jdiff_press_release (t d : Nat) (h : t + d < WORD) :
    jdiff (t + d) (t % WORD) = d := by
  have hw : WORD = 18446744073709551616 := by norm_num [WORD]
  unfold jdiff
  rw [hw] at h ⊢
  omega

end TwoButtonBlink

namespace TwoButtonBlink

lemma led_lit_append_clear (b : Bool) (l : List GpioCall) :
    led_lit b (l ++ [GpioCall.clearPin GPIO_LED]) = false := by
  induction l generalizing b with
  | nil => rfl
  | cons c rest ih => cases c <;> simp [led_lit, ih]

lemma poll_thread_fn_stop_length (stop : Nat → Bool) (inputs : Nat → Input) :
    ∀ fuel i k s, stop (i + k) = true →
      (poll_thread_fn stop inputs fuel i s).2.length ≤ k := by
  intro fuel
  induction fuel with
  | zero => intro i k s h; simp [poll_thread_fn]
  | succ n ih =>
    intro i k s h
    by_cases hs : stop i = true
    · simp [poll_thread_fn, hs]
    · cases k with
      | zero => rw [Nat.add_zero] at h; exact absurd h hs
      | succ j =>
        have hrec := ih (i + 1) j (poll_iteration (inputs i) s).1 (by
          have harg : i + 1 + j = i + (j + 1) := by omega
          rw [harg]; exact h)
        simp [poll_thread_fn, hs]
        omega

/-- C1: for each button, starting from the rest level (HIGH), a press
sample (LOW at time `t`) followed by a release sample (HIGH at time
`t + d`) changes `blink_freq` by exactly +5 (increment button) or -5
with the floor clamp at 1 (decrement button) when the held time `d` is
strictly below `HZ` jiffies (one second), and changes it by 0 when
`d` is at least `HZ`. -/
theorem short_press_adjusts_freq (s : LoopState) (t d : Nat)
    (hinc : s.last_inc_state = 1) (hdec : s.last_dec_state = 1)
    (hbound : t + d < WORD) :
    ((d < HZ →
        (check_inc_button (t + d) 1 (check_inc_button t 0 s)).blink_freq
          = s.blink_freq + 5) ∧
     (HZ ≤ d →
        (check_inc_button (t + d) 1 (check_inc_button t 0 s)).blink_freq
          = s.blink_freq)) ∧
    ((d < HZ →
        (check_dec_button (t + d) 1 (check_dec_button t 0 s)).blink_freq
          = if s.blink_freq - 5 < 1 then 1 else s.blink_freq - 5) ∧
     (HZ ≤ d →
        (check_dec_button (t + d) 1 (check_dec_button t 0 s)).blink_freq
          = s.blink_freq)) := by
  refine ⟨⟨?_, ?_⟩, ?_, ?_⟩ <;> intro hd
  · simp [check_inc_button, hinc, jdiff_press_release t d hbound, hd]
  · simp [check_inc_button, hinc, jdiff_press_release t d hbound,
      Nat.not_lt.mpr hd]
  · simp [check_dec_button, hdec, jdiff_press_release t d hbound, hd]
  · simp [check_dec_button, hdec, jdiff_press_release t d hbound,
      Nat.not_lt.mpr hd]

/-- Witness for C1: from the initial state, a press at jiffy 0
released at jiffy 50 (held half a second) raises the frequency by 5. -/
theorem short_press_adjusts_freq_witness :
    (check_inc_button (0 + 50) 1 (check_inc_button 0 0 init_state)).blink_freq
      = init_state.blink_freq + 5 :=
  ((short_press_adjusts_freq init_state 0 50 rfl rfl
      (by norm_num [WORD])).1).1 (by norm_num [HZ])

end TwoButtonBlink

namespace TwoButtonBlink

/-- C2: starting from the initial frequency 2, after any sequence of
loop iterations (hence any sequence of increment and decrement
short-press events) the frequency is at least 1: the decrement path
clamps at the floor 1 and no operation drives it to zero or below. -/
theorem freq_floor_invariant (inps : List Input) :
    1 ≤ (runList inps init_state).1.blink_freq :=
  runList_one_le inps init_state (by norm_num [init_state])

/-- C3: each iteration's `msleep` argument equals `(1000 / f) / 2`
under C truncating integer division, where `f` is the frequency of the
post-iteration state, i.e. the value re-clamped to at least 1
immediately before the division — so the division is never by zero —
and for frequency 7 the half-period is 71. -/
theorem half_period_formula (inp : Input) (s : LoopState) :
    1 ≤ (poll_iteration inp s).1.blink_freq ∧
    (poll_iteration inp s).2.2
      = (halfPeriodMs (poll_iteration inp s).1.blink_freq).toNat ∧
    halfPeriodMs 7 = 71 :=
  ⟨poll_iteration_one_le inp s, rfl, by decide⟩

/-- C5: the output strictly alternates: every iteration issues exactly
one set/clear call (the trace has one entry per iteration) and, from
the initial unlit state, the LED is lit after `n` iterations iff `n`
is odd. -/
theorem led_alternates (inps : List Input) :
    (runList inps init_state).1.led_on = decide (inps.length % 2 = 1) ∧
    (runList inps init_state).2.length = inps.length := by
  refine ⟨?_, runList_length inps init_state⟩
  rw [runList_led]
  simp [init_state]

/-- C6: after a sample of a button is processed, that button's stored
`last_*_state` equals the sampled level, whether or not a transition
occurred — both at the per-handler level and after a whole iteration. -/
theorem last_level_mirrors_input (inp : Input) (s : LoopState) :
    (check_inc_button inp.now inp.inc_level s).last_inc_state = inp.inc_level ∧
    (check_dec_button inp.now inp.dec_level s).last_dec_state = inp.dec_level ∧
    (poll_iteration inp s).1.last_inc_state = inp.inc_level ∧
    (poll_iteration inp s).1.last_dec_state = inp.dec_level :=
  ⟨check_inc_button_last inp.now inp.inc_level s,
   check_dec_button_last inp.now inp.dec_level s,
   (poll_iteration_last_levels inp s).1,
   (poll_iteration_last_levels inp s).2⟩

/-- C7: if `ioremap` succeeded but `kthread_run` fails,
`two_button_init` unmaps the GPIO mapping, does not leave the polling
thread running, and returns `PTR_ERR(poll_thread)` to the caller. -/
theorem kthread_fail_unwinds (env : InitEnv) (e : Int)
    (hio : env.ioremap_ok = true) (hk : env.kthread_err = some e) :
    two_button_init env
      = { ret := e, gpio_mapped := false, thread_started := false } := by
  simp [two_button_init, hio, hk]

/-- Witness for C7: `kthread_run` failing with `-EAGAIN` (-11) after a
successful `ioremap`. -/
theorem kthread_fail_unwinds_witness :
    two_button_init { ioremap_ok := true, kthread_err := some (-11) }
      = { ret := -11, gpio_mapped := false, thread_started := false } :=
  kthread_fail_unwinds { ioremap_ok := true, kthread_err := some (-11) }
    (-11) rfl rfl

/-- C8: at startup, before the first iteration: frequency 2, both
buttons' last observed level HIGH (1), and the LED unlit. -/
theorem startup_state :
    init_state.blink_freq = 2 ∧ init_state.last_inc_state = 1 ∧
    init_state.last_dec_state = 1 ∧ init_state.led_on = false :=
  ⟨rfl, rfl, rfl, rfl⟩

/-- C9: processing an increment-button sample leaves the decrement
button's stored level and press timestamp (and the LED flag)
unchanged, and symmetrically for the decrement handler: the only
shared variable either press handler modifies is the frequency. -/
theorem handlers_do_not_cross (now c : Nat) (s : LoopState) :
    (check_inc_button now c s).last_dec_state = s.last_dec_state ∧
    (check_inc_button now c s).dec_press_jiffies = s.dec_press_jiffies ∧
    (check_inc_button now c s).led_on = s.led_on ∧
    (check_dec_button now c s).last_inc_state = s.last_inc_state ∧
    (check_dec_button now c s).inc_press_jiffies = s.inc_press_jiffies ∧
    (check_dec_button now c s).led_on = s.led_on :=
  ⟨check_inc_button_last_dec now c s, check_inc_button_dec_press now c s,
   check_inc_button_led now c s, check_dec_button_last_inc now c s,
   check_dec_button_inc_press now c s, check_dec_button_led now c s⟩

end TwoButtonBlink

namespace TwoButtonBlink

lemma pair_state (rest : List Input) (s : LoopState)
    (h1 : s.last_inc_state = 1) (h2 : s.last_dec_state = 1)
    (h3 : 1 ≤ s.blink_freq) :
    (runList (⟨0, 0, 1⟩ :: ⟨0, 1, 1⟩ :: rest) s).1
      = (runList rest
          { s with blink_freq := s.blink_freq + 5,
                   inc_press_jiffies := 0 }).1 := by
  have hc1 : ¬(s.blink_freq < 1) := by omega
  have hc2 : ¬(s.blink_freq + 5 < 1) := by omega
  have hj : jdiff 0 0 = 0 := by norm_num [jdiff, WORD]
  cases hled : s.led_on <;>
    simp [runList, poll_iteration, check_inc_button, check_dec_button,
      toggle_led, h1, h2, hc1, hc2, hj, hled, HZ]

end TwoButtonBlink

namespace TwoButtonBlink

/-- Sample sequence of `k` short presses of the increment button: each
pair is a press sample followed, within the same jiffy (held time 0,
below `HZ`), by a release sample. -/
def inc_presses (k : Nat) : List Input :=
  (List.replicate k ([⟨0, 0, 1⟩, ⟨0, 1, 1⟩] : List Input)).flatten

lemma inc_presses_freq : ∀ (k : Nat) (s : LoopState),
    s.last_inc_state = 1 → s.last_dec_state = 1 → 1 ≤ s.blink_freq →
    (runList (inc_presses k) s).1.blink_freq = s.blink_freq + 5 * k := by
  intro k
  induction k with
  | zero => intro s _ _ _; simp [inc_presses, runList]
  | succ n ih =>
    intro s h1 h2 h3
    have hsplit : inc_presses (n + 1)
        = (⟨0, 0, 1⟩ : Input) :: ⟨0, 1, 1⟩ :: inc_presses n := by
      simp [inc_presses, List.replicate_succ]
    rw [hsplit]
    have hrw := pair_state (inc_presses n) s h1 h2 h3
    have hfreq : (runList (⟨0, 0, 1⟩ :: ⟨0, 1, 1⟩ :: inc_presses n) s).1.blink_freq
        = (runList (inc_presses n)
            { s with blink_freq := s.blink_freq + 5,
                     inc_press_jiffies := 0 }).1.blink_freq := by
      rw [hrw]
    have hge : (1 : Int) ≤ s.blink_freq + 5 := by omega
    have hfinal := ih
      { s with blink_freq := s.blink_freq + 5, inc_press_jiffies := 0 }
      h1 h2 hge
    rw [hfreq, hfinal]
    have hproj :
        ({ s with blink_freq := s.blink_freq + 5, inc_press_jiffies := 0 }
          : LoopState).blink_freq = s.blink_freq + 5 := rfl
    rw [hproj]
    push_cast
    ring

end TwoButtonBlink

namespace TwoButtonBlink

/-- C4 counterexample: with a stop requested at guard check 1 (so the
loop runs exactly one iteration), the thread function returns with the
LED still lit and its own call trace holding only the `gpio_set_pin`
call — `poll_thread_fn` does not force the output unlit before its
`return 0`; the `gpio_clear_pin` is issued only afterwards, by
`two_button_exit`. -/
theorem loop_returns_with_led_lit :
    (poll_thread_fn (fun i => decide (1 ≤ i)) (fun _ => ⟨0, 1, 1⟩)
        5 0 init_state).1.led_on = true ∧
    (poll_thread_fn (fun i => decide (1 ≤ i)) (fun _ => ⟨0, 1, 1⟩)
        5 0 init_state).2.map Prod.fst = [GpioCall.setPin GPIO_LED] :=
  ⟨rfl, rfl⟩

/-- C4 (amended): once a stop is observed at guard check `k`, the loop
runs at most `k` iterations in total — a request arriving during
iteration `j` is first seen by check `j + 1`, allowing at most one
more iteration — and after the loop function has returned,
`two_button_exit` issues `gpio_clear_pin(GPIO_LED)`, so whatever the
LED's state at the loop's return, the output ends unlit. -/
theorem stop_bounds_iterations_and_exit_unlights (stop : Nat → Bool)
    (inputs : Nat → Input) (fuel k : Nat) (s : LoopState) (b : Bool)
    (h : stop k = true) :
    (poll_thread_fn stop inputs fuel 0 s).2.length ≤ k ∧
    led_lit b (two_button_exit_calls
      ((poll_thread_fn stop inputs fuel 0 s).2.map Prod.fst)) = false := by
  refine ⟨?_, ?_⟩
  · exact poll_thread_fn_stop_length stop inputs fuel 0 k s
      (by simpa using h)
  · unfold two_button_exit_calls
    exact led_lit_append_clear b _

/-- Witness for C4: stop observed at check 1 bounds the run to one
iteration, and the shutdown call sequence leaves the LED unlit. -/
theorem stop_bounds_iterations_witness :
    (poll_thread_fn (fun i => decide (1 ≤ i)) (fun _ => ⟨1, 1, 1⟩)
        5 0 init_state).2.length ≤ 1 ∧
    led_lit false (two_button_exit_calls
      ((poll_thread_fn (fun i => decide (1 ≤ i)) (fun _ => ⟨1, 1, 1⟩)
          5 0 init_state).2.map Prod.fst)) = false :=
  stop_bounds_iterations_and_exit_unlights (fun i => decide (1 ≤ i))
    (fun _ => ⟨1, 1, 1⟩) 5 1 init_state false (by decide)

/-- C10: for every frequency of at least 501 the computed half-period
`(1000 / f) / 2` is 0, so the inter-iteration sleep is zero; the state
is reachable — one hundred short presses of the increment button from
the initial state give frequency 502, whose half-period is 0. -/
theorem high_freq_sleeps_zero :
    (∀ f : Int, 501 ≤ f → halfPeriodMs f = 0) ∧
    (runList (inc_presses 100) init_state).1.blink_freq = 502 ∧
    halfPeriodMs ((runList (inc_presses 100) init_state).1.blink_freq)
      = 0 := by
  have hreach : (runList (inc_presses 100) init_state).1.blink_freq = 502 := by
    rw [inc_presses_freq 100 init_state rfl rfl (by norm_num [init_state])]
    norm_num [init_state]
  have hall : ∀ f : Int, 501 ≤ f → halfPeriodMs f = 0 := by
    intro f hf
    have hfpos : (0 : Int) < f := by omega
    have ht1 : (1000 : Int).tdiv f = 1000 / f :=
      Int.tdiv_eq_ediv (by norm_num) (by omega)
    have h0 : 0 ≤ (1000 : Int) / f :=
      Int.ediv_nonneg (by norm_num) (by omega)
    have ht2 : ((1000 : Int) / f).tdiv 2 = (1000 / f) / 2 :=
      Int.tdiv_eq_ediv h0 (by norm_num)
    have hlt : (1000 : Int) / f < 2 :=
      (Int.ediv_lt_iff_lt_mul hfpos).mpr (by omega)
    unfold halfPeriodMs
    rw [ht1, ht2]
    exact Int.ediv_eq_zero_of_lt h0 hlt
  refine ⟨hall, hreach, ?_⟩
  rw [hreach]
  exact hall 502 (by norm_num)

/-- Witness for C10 at the boundary frequency 501. -/
theorem high_freq_sleeps_zero_witness : halfPeriodMs 501 = 0 :=
  high_freq_sleeps_zero.1 501 (by norm_num)

end TwoButtonBlink
